import Mathlib

/-!
Shallow embedding of `src/pipeline_utils/queue_transport.py` (the queue
transport unit of the repository): the data model (`AudioConfig`, frames),
the Input Adapter (`QueueInputTransport`) with its background polling loop,
the Output Adapter (`QueueOutputTransport`) with its write path, and the
facade (`QueueTransport`).

Conventions of the embedding:
- Python byte strings are `List Nat` (`ByteBuf`); `[]` is the falsy empty
  buffer `b""` (also standing for a falsy `None` payload, which the write
  path treats identically).
- Python object references (queues, transports, tasks) are `Nat` ids.
- The background loop `_server_task_handler` is an explicit recursion over a
  *script* of per-iteration environment outcomes (what
  `asyncio.wait_for(self._queue.get(), timeout=0.1)` and the subsequent
  processing yield on that iteration); the `asyncio.Event` stop flag is a
  `Bool`. A finite script that runs out while the loop is still active
  leaves the loop `stillRunning`.
- Fallible Python calls are `Except PyErr`; an exception that a `try` block
  catches is consumed by the corresponding `match`.
-/

namespace QTModel

/-- A Python `bytes` buffer as a list of byte values. -/
abbrev ByteBuf := List Nat

/-- `AudioConfig` dataclass: `sample_rate: int = 16000`, `num_channels: int = 1`. -/
structure AudioConfig where
  sample_rate : Nat := 16000
  num_channels : Nat := 1
deriving DecidableEq, Repr

/-- `pipecat.frames.frames.InputAudioRawFrame` as constructed by this unit:
the payload plus the sample rate and channel count it was built with. -/
structure InputAudioRawFrame where
  audio : ByteBuf
  sample_rate : Nat
  num_channels : Nat
deriving DecidableEq, Repr

/-- `pipecat.frames.frames.OutputAudioRawFrame` as constructed by this unit. -/
structure OutputAudioRawFrame where
  audio : ByteBuf
  sample_rate : Nat
  num_channels : Nat
deriving DecidableEq, Repr

/-- The frame variants this unit constructs or forwards. -/
inductive Frame where
  | inputAudio (f : InputAudioRawFrame)
  | outputAudio (f : OutputAudioRawFrame)
  | message (payload : String)
  | urgentMessage (payload : String)
deriving DecidableEq, Repr

/-- `TransportMessageFrame | TransportMessageUrgentFrame`, the argument type
of `QueueOutputTransport.send_message`. -/
inductive TransportMessage where
  | ordinary (payload : String)
  | urgent (payload : String)
deriving DecidableEq, Repr

def TransportMessage.toFrame : TransportMessage → Frame
  | .ordinary p => .message p
  | .urgent p => .urgentMessage p

/-! ## Input Adapter background loop

`QueueInputTransport._server_task_handler` is, per iteration:

```
while not self._stop_server_event.is_set():
    try:
        frame = await asyncio.wait_for(self._queue.get(), timeout=0.1)
        audio_frame = InputAudioRawFrame(audio=frame, sample_rate=..., num_channels=...)
        await self.process_frame(audio_frame)
        self._queue.task_done()
    except asyncio.TimeoutError:
        empty_frame = InputAudioRawFrame(audio=b"", ...)
        await self.process_frame(empty_frame)
    except Exception as e:
        self.logger.error(f"Error processing queue item: ...")
```

wrapped in an outer `try ... except asyncio.CancelledError` that logs at
debug level, followed unconditionally by a debug log and
`await self._stop_server_event.wait()`.
-/

/-- Environment outcome of one iteration of the polling loop. -/
inductive FetchResult where
  /-- `wait_for` returned buffer `b` and the whole body ran without error. -/
  | item (b : ByteBuf)
  /-- `wait_for` returned buffer `b`, `process_frame` forwarded the frame,
  and then an exception `e` was raised (e.g. in `task_done`). -/
  | itemThenFail (b : ByteBuf) (e : String)
  /-- `asyncio.TimeoutError`: no item within the 100 ms bounded wait. -/
  | timeout
  /-- An exception `e` other than `TimeoutError`/`CancelledError` was raised
  before the dequeued item (if any) was forwarded. -/
  | fail (e : String)
  /-- `asyncio.CancelledError` was delivered at the suspension point. -/
  | cancelled
deriving DecidableEq, Repr

/-- Log entries the handler can emit. -/
inductive LogEntry where
  /-- `self.logger.error("Error processing queue item: ...")`. -/
  | procError (e : String)
  /-- `self.logger.debug("Queue processing task was cancelled")`. -/
  | cancelledDebug
  /-- `self.logger.debug("Queue processing stopped")`. -/
  | stoppedDebug
deriving DecidableEq, Repr

/-- How a (finite) run of the handler ends. -/
inductive HandlerExit where
  /-- The coroutine returned: the final `await self._stop_server_event.wait()`
  found the stop event already set. -/
  | finished
  /-- The coroutine is suspended on the final
  `await self._stop_server_event.wait()` with the stop event unset. -/
  | blockedOnStopWait
  /-- The script ran out while the polling loop was still active. -/
  | stillRunning
deriving DecidableEq, Repr

/-- Observable result of running the handler on a script. -/
structure HandlerResult where
  /-- Frames passed to `process_frame`, in order. -/
  forwarded : List InputAudioRawFrame
  /-- Log entries, in order. -/
  log : List LogEntry
  exit : HandlerExit
  /-- Whether a `CancelledError` escaped the coroutine to the framework. -/
  cancelPropagated : Bool
deriving DecidableEq, Repr

/-- The frame built from a dequeued buffer:
`InputAudioRawFrame(audio=frame, sample_rate=..., num_channels=...)`. -/
def inputFrame (cfg : AudioConfig) (b : ByteBuf) : InputAudioRawFrame :=
  { audio := b, sample_rate := cfg.sample_rate, num_channels := cfg.num_channels }

/-- The empty heartbeat frame built on timeout. -/
def heartbeatFrame (cfg : AudioConfig) : InputAudioRawFrame :=
  inputFrame cfg []

/-- The `while` loop of `_server_task_handler` with the stop event unset,
followed by the code after the outer `try`. On `cancelled` the outer
`except asyncio.CancelledError` catches, logs at debug level, and control
falls through to the final debug log and `await self._stop_server_event.wait()`,
which (stop event unset) suspends forever: the cancellation is not re-raised. -/
def runLoop (cfg : AudioConfig) : List FetchResult → HandlerResult
  | [] => { forwarded := [], log := [], exit := .stillRunning, cancelPropagated := false }
  | .item b :: rest =>
      let r := runLoop cfg rest
      { r with forwarded := inputFrame cfg b :: r.forwarded }
  | .itemThenFail b e :: rest =>
      let r := runLoop cfg rest
      { r with forwarded := inputFrame cfg b :: r.forwarded,
               log := .procError e :: r.log }
  | .timeout :: rest =>
      let r := runLoop cfg rest
      { r with forwarded := heartbeatFrame cfg :: r.forwarded }
  | .fail e :: rest =>
      let r := runLoop cfg rest
      { r with log := .procError e :: r.log }
  | .cancelled :: _ =>
      { forwarded := [], log := [.cancelledDebug, .stoppedDebug],
        exit := .blockedOnStopWait, cancelPropagated := false }

/-- `_server_task_handler` run with the stop event held at `stopSet` for the
whole run (no concurrent `stop()` mid-run). With the stop event set, the
`while` condition fails at once, the handler logs the final debug message and
returns from `await self._stop_server_event.wait()` immediately. -/
def serverTaskHandler (cfg : AudioConfig) (stopSet : Bool)
    (script : List FetchResult) : HandlerResult :=
  if stopSet then
    { forwarded := [], log := [.stoppedDebug], exit := .finished, cancelPropagated := false }
  else
    runLoop cfg script

/-- The buffers delivered by the queue over a script, in delivery order
(`asyncio.Queue` is FIFO, so for items all pushed before the adapter starts
this is the pushed sequence). Only clean `item` iterations are counted. -/
def itemsOf : List FetchResult → List ByteBuf
  | [] => []
  | .item b :: rest => b :: itemsOf rest
  | _ :: rest => itemsOf rest

/-- The payloads of the non-empty frames of a forwarded stream: the
observation used by the ordering property (empty heartbeat frames dropped). -/
def nonEmptyPayloads : List InputAudioRawFrame → List ByteBuf
  | [] => []
  | f :: rest =>
      if f.audio = [] then nonEmptyPayloads rest else f.audio :: nonEmptyPayloads rest

/-- A script consisting only of successful dequeues and timeouts
(no processing errors, no cancellation). -/
def cleanEntry : FetchResult → Bool
  | .item _ => true
  | .timeout => true
  | _ => false

def cleanScript (s : List FetchResult) : Bool :=
  s.all cleanEntry

/-! ## Input Adapter lifecycle state

`QueueInputTransport.__init__` stores the wrapped transport, the inbound
queue, `_server_task = None`, a fresh (unset) `_stop_server_event`, and
`audio_config or AudioConfig()`. `start`/`stop`/`cancel` mutate only
`_server_task` and `_stop_server_event`; the base-class calls
(`super().start(...)` etc.) touch none of these fields and are elided. -/

structure QueueInputTransport where
  /-- Object id of the `transport` argument (the facade passes itself). -/
  transportRef : Nat
  /-- Object id of the inbound `asyncio.Queue`. -/
  queueRef : Nat
  /-- `_server_task`: id of the background task, or `none` for Python `None`. -/
  serverTask : Option Nat
  /-- `_stop_server_event.is_set()`. -/
  stopServerEvent : Bool
  /-- `_audio_config`. -/
  audio_config : AudioConfig
deriving DecidableEq, Repr

/-- `QueueInputTransport.__init__(transport, queue, audio_config=None)`. -/
def QueueInputTransport.init (transport queue : Nat)
    (audio_config : Option AudioConfig) : QueueInputTransport :=
  { transportRef := transport, queueRef := queue, serverTask := none,
    stopServerEvent := false, audio_config := audio_config.getD {} }

/-- `QueueInputTransport.start`: `if not self._server_task:` create the
background task (a `Task` object is always truthy, `None` is falsy).
`newTask` is the id the runtime would give a freshly created task; the second
component counts tasks created by this call (0 or 1). -/
def QueueInputTransport.start (s : QueueInputTransport) (newTask : Nat) :
    QueueInputTransport × Nat :=
  match s.serverTask with
  | none => ({ s with serverTask := some newTask }, 1)
  | some _ => (s, 0)

/-- A sequence of consecutive `start()` calls (one fresh id per call),
returning the final state and the total number of tasks created. -/
def startN (s : QueueInputTransport) (ids : List Nat) : QueueInputTransport × Nat :=
  match ids with
  | [] => (s, 0)
  | id :: rest =>
      let p := s.start id
      let q := startN p.1 rest
      (q.1, p.2 + q.2)

/-- `QueueInputTransport.stop`: sets `_stop_server_event`, and if a server
task exists waits for it and clears `_server_task`. Nothing ever clears the
event (`asyncio.Event.clear` is never called in this unit). -/
def QueueInputTransport.stopOp (s : QueueInputTransport) : QueueInputTransport :=
  let s1 := { s with stopServerEvent := true }
  match s1.serverTask with
  | some _ => { s1 with serverTask := none }
  | none => s1

/-- `QueueInputTransport.cancel`: if a server task exists, cancels it and
clears `_server_task`; the stop event is not touched. -/
def QueueInputTransport.cancelOp (s : QueueInputTransport) : QueueInputTransport :=
  match s.serverTask with
  | some _ => { s with serverTask := none }
  | none => s

/-- The lifecycle operations of the Input Adapter. -/
inductive TransportOp where
  | opStart (id : Nat)
  | opStop
  | opCancel
deriving DecidableEq, Repr

def applyOp (s : QueueInputTransport) : TransportOp → QueueInputTransport
  | .opStart id => (s.start id).1
  | .opStop => s.stopOp
  | .opCancel => s.cancelOp

/-! ## Output Adapter

`QueueOutputTransport.__init__(self, transport, queue, **kwargs)` stores the
transport and queue. Its write path reads state owned by the pipecat base
class: `self.sample_rate` (resolved by `BaseOutputTransport` from its params
and the `StartFrame`), `self._params.audio_out_channels`,
`self._params.serializer` and `self._websocket`. No `AudioConfig` of this
unit is ever attached to the output adapter. -/

/-- A Python exception, by class name and message. -/
structure PyErr where
  className : String
  msg : String
deriving DecidableEq, Repr

structure QueueOutputTransport where
  /-- `_transport` as bound by `__init__`. -/
  transport : Nat
  /-- `_queue` as bound by `__init__`. -/
  queue : Nat
  /-- `BaseOutputTransport.sample_rate` (base-class state, from the params /
  the `StartFrame`, not from this unit). -/
  sample_rate : Nat
  /-- `self._params.audio_out_channels` (base-class params). -/
  audio_out_channels : Nat
  /-- `str(self)`, the adapter identity interpolated into the error log. -/
  selfRepr : String
deriving DecidableEq, Repr

/-- Positional-argument binding for
`QueueOutputTransport.__init__(self, transport, queue, **kwargs)`: two
required positional parameters with no defaults. Python raises `TypeError`
when a required positional argument is missing (the message here is a fixed
summary of CPython wording). -/
def QueueOutputTransport.bindInit (pos : List Nat) : Except PyErr (Nat × Nat) :=
  match pos with
  | [t, q] => .ok (t, q)
  | [_] => .error { className := "TypeError",
                    msg := "missing 1 required positional argument: queue" }
  | [] => .error { className := "TypeError",
                   msg := "missing 2 required positional arguments" }
  | _ => .error { className := "TypeError",
                  msg := "too many positional arguments" }

/-- Observable outcome of `_write_frame`: the payload passed to
`self._websocket.send`, if that call was made, and the error log line, if
one was emitted. `_write_frame` returns this outcome as a plain value — its
`try`/`except Exception` stops every exception, so none reaches the caller. -/
structure WriteOutcome where
  sendAttempted : Option ByteBuf
  errorLog : Option String
deriving DecidableEq, Repr

/-- `f"{self} exception sending data: {e.__class__.__name__} ({e})"`. -/
def excLogMsg (selfRepr : String) (e : PyErr) : String :=
  selfRepr ++ " exception sending data: " ++ e.className ++ " (" ++ e.msg ++ ")"

/-- `QueueOutputTransport._write_frame`:

```
try:
    payload = await self._params.serializer.serialize(frame)
    if payload and self._websocket:
        await self._websocket.send(payload)
except Exception as e:
    logger.error(f"{self} exception sending data: ...")
```

`serialize` and `send` are the external collaborators, each of which may
raise; `websocketAttached` is the truthiness of `self._websocket`; an empty
payload (`b""` or `None`) is falsy. -/
def QueueOutputTransport.writeFrame (self : QueueOutputTransport)
    (serialize : Frame → Except PyErr ByteBuf)
    (send : ByteBuf → Except PyErr Unit)
    (websocketAttached : Bool) (frame : Frame) : WriteOutcome :=
  match serialize frame with
  | .error e => { sendAttempted := none, errorLog := some (excLogMsg self.selfRepr e) }
  | .ok payload =>
      if !payload.isEmpty && websocketAttached then
        match send payload with
        | .ok _ => { sendAttempted := some payload, errorLog := none }
        | .error e => { sendAttempted := some payload,
                        errorLog := some (excLogMsg self.selfRepr e) }
      else
        { sendAttempted := none, errorLog := none }

/-- `QueueOutputTransport.send_message(frame)`: writes the message frame
through `_write_frame`. -/
def QueueOutputTransport.send_message (self : QueueOutputTransport)
    (serialize : Frame → Except PyErr ByteBuf)
    (send : ByteBuf → Except PyErr Unit)
    (websocketAttached : Bool) (m : TransportMessage) : WriteOutcome :=
  self.writeFrame serialize send websocketAttached m.toFrame

/-- The `OutputAudioRawFrame` that `write_raw_audio_frames` builds:
`OutputAudioRawFrame(audio=frames, sample_rate=self.sample_rate,
num_channels=self._params.audio_out_channels)`. -/
def QueueOutputTransport.outFrameFor (self : QueueOutputTransport)
    (frames : ByteBuf) : OutputAudioRawFrame :=
  { audio := frames, sample_rate := self.sample_rate,
    num_channels := self.audio_out_channels }

/-- `QueueOutputTransport.write_raw_audio_frames(frames)`: wraps the buffer
and writes the frame through `_write_frame`. -/
def QueueOutputTransport.write_raw_audio_frames (self : QueueOutputTransport)
    (serialize : Frame → Except PyErr ByteBuf)
    (send : ByteBuf → Except PyErr Unit)
    (websocketAttached : Bool) (frames : ByteBuf) : WriteOutcome :=
  self.writeFrame serialize send websocketAttached
    (.outputAudio (self.outFrameFor frames))

/-! ## Transport facade -/

structure QueueTransport where
  /-- Python object id of this facade instance (`self`). -/
  selfRef : Nat
  /-- `_input_queue`. -/
  inputQueue : Nat
  /-- `_output_queue`. -/
  outputQueue : Nat
  /-- `_input` cache. -/
  inputCache : Option QueueInputTransport
  /-- `_output` cache: the `(transport, queue)` binding of a successfully
  constructed output adapter. -/
  outputCache : Option (Nat × Nat)
  /-- `_audio_config`. -/
  audio_config : AudioConfig
deriving DecidableEq, Repr

/-- `QueueTransport.__init__(input_queue, output_queue, ..., audio_config=None)`. -/
def QueueTransport.init (selfRef inputQueue outputQueue : Nat)
    (audio_config : Option AudioConfig) : QueueTransport :=
  { selfRef, inputQueue, outputQueue, inputCache := none, outputCache := none,
    audio_config := audio_config.getD {} }

/-- `QueueTransport.input`: `if not self._input:` construct
`QueueInputTransport(self, self._input_queue, audio_config=self._audio_config)`
and cache it; return the cached adapter. -/
def QueueTransport.input (t : QueueTransport) :
    QueueTransport × QueueInputTransport :=
  match t.inputCache with
  | some i => (t, i)
  | none =>
      let i := QueueInputTransport.init t.selfRef t.inputQueue (some t.audio_config)
      ({ t with inputCache := some i }, i)

/-- `QueueTransport.output`: `if not self._output:` the source executes
`QueueOutputTransport(self._output_queue)` — a single positional argument for
a constructor with two required positional parameters — then would cache and
return the result. -/
def QueueTransport.output (t : QueueTransport) :
    Except PyErr (QueueTransport × (Nat × Nat)) :=
  match t.outputCache with
  | some o => .ok (t, o)
  | none =>
      match QueueOutputTransport.bindInit [t.outputQueue] with
      | .ok o => .ok ({ t with outputCache := some o }, o)
      | .error e => .error e

/-- A sequence of `write_raw_audio_frames` calls on one adapter. The write
path assigns no adapter attribute, so every call acts on the same adapter
value. -/
def writeMany (self : QueueOutputTransport)
    (serialize : Frame → Except PyErr ByteBuf)
    (send : ByteBuf → Except PyErr Unit)
    (websocketAttached : Bool) (calls : List ByteBuf) : List WriteOutcome :=
  calls.map (fun bs => self.write_raw_audio_frames serialize send websocketAttached bs)

/-- A concrete output adapter with the pipecat default base state
(16000 Hz, 1 channel), used to instantiate theorems. -/
def sampleOut : QueueOutputTransport :=
  { transport := 0, queue := 1, sample_rate := 16000, audio_out_channels := 1,
    selfRepr := "QueueOutputTransport#0" }

/-- A concrete output adapter whose pipecat base state resolved 8000 Hz and
2 channels (`TransportParams(audio_out_sample_rate=8000, audio_out_channels=2)`). -/
def out8k : QueueOutputTransport :=
  { transport := 0, queue := 1, sample_rate := 8000, audio_out_channels := 2,
    selfRepr := "QueueOutputTransport#1" }

/-! ## Theorems -/

/-- The handler with the stop event unset is the polling loop itself. -/
theorem serverTaskHandler_false (cfg : AudioConfig) (script : List FetchResult) :
    serverTaskHandler cfg false script = runLoop cfg script := rfl

/-- C5: on a loop iteration of the running Input Adapter in which the 100 ms
bounded wait times out, the frame forwarded downstream ahead of the rest of
the run is an inbound raw-audio frame with empty payload whose sample rate
and channel count are the adapter's configured audio configuration. -/
theorem timeout_iteration_forwards_heartbeat (cfg : AudioConfig)
    (rest : List FetchResult) :
    (serverTaskHandler cfg false (.timeout :: rest)).forwarded =
      { audio := [], sample_rate := cfg.sample_rate,
        num_channels := cfg.num_channels } ::
        (serverTaskHandler cfg false rest).forwarded := rfl

/-- C6: an error other than a fetch timeout or cancellation raised during an
iteration of the Input Adapter loop is logged and the loop continues exactly
as it would on the remaining iterations: the run forwards the same frames as
the continuation (plus, when the error struck after forwarding, the already
forwarded frame), the log gains the error entry, and the exit status and
cancellation behaviour of the run are those of the continuation — the error
never terminates the loop, and at most the item of that iteration is lost. -/
theorem processing_error_logged_loop_continues (cfg : AudioConfig) (e : String)
    (b : ByteBuf) (rest : List FetchResult) :
    serverTaskHandler cfg false (.fail e :: rest) =
      { serverTaskHandler cfg false rest with
          log := .procError e :: (serverTaskHandler cfg false rest).log } ∧
    serverTaskHandler cfg false (.itemThenFail b e :: rest) =
      { serverTaskHandler cfg false rest with
          forwarded := inputFrame cfg b ::
            (serverTaskHandler cfg false rest).forwarded,
          log := .procError e :: (serverTaskHandler cfg false rest).log } :=
  ⟨rfl, rfl⟩

/-- C2 (evaluation of the code at the failing scenario): when the background
loop is cancelled while suspended and the stop event is unset, the handler
catches the `CancelledError`, emits the two debug log lines, and then
suspends on `await self._stop_server_event.wait()`; the cancellation is
never propagated outward to the framework. -/
theorem cancelled_loop_swallows_cancellation (cfg : AudioConfig)
    (rest : List FetchResult) :
    serverTaskHandler cfg false (.cancelled :: rest) =
      { forwarded := [], log := [.cancelledDebug, .stoppedDebug],
        exit := .blockedOnStopWait, cancelPropagated := false } := rfl

/-- Every lifecycle operation preserves a set stop event: `start` and
`cancel` do not touch `_stop_server_event`, and `stop` sets it. -/
theorem applyOp_preserves_stop (t : QueueInputTransport) (op : TransportOp)
    (h : t.stopServerEvent = true) : (applyOp t op).stopServerEvent = true := by
  cases op with
  | opStart id =>
      simp only [applyOp, QueueInputTransport.start]
      cases t.serverTask <;> simpa using h
  | opStop =>
      simp only [applyOp, QueueInputTransport.stopOp]
      cases t.serverTask <;> simp
  | opCancel =>
      simp only [applyOp, QueueInputTransport.cancelOp]
      cases t.serverTask <;> simpa using h

/-- C10: after `stop()` completes, the stop flag stays set across any further
sequence of `start`/`stop`/`cancel` operations (nothing in the unit clears
the event), and a background loop run with the stop event set performs no
fetch/process iterations: whatever the environment script (and so whatever
sits in the inbound queue), it forwards no frames, logs only the final debug
line, and returns. -/
theorem stop_flag_permanent_and_loop_inert (s : QueueInputTransport)
    (ops : List TransportOp) (cfg : AudioConfig) (script : List FetchResult) :
    (ops.foldl applyOp s.stopOp).stopServerEvent = true ∧
    serverTaskHandler cfg true script =
      { forwarded := [], log := [.stoppedDebug], exit := .finished,
        cancelPropagated := false } := by
  constructor
  · have key : ∀ (l : List TransportOp) (t : QueueInputTransport),
        t.stopServerEvent = true → (l.foldl applyOp t).stopServerEvent = true := by
      intro l
      induction l with
      | nil => intro t h; exact h
      | cons op restOps ih =>
          intro t h
          exact ih _ (applyOp_preserves_stop t op h)
    refine key ops s.stopOp ?_
    simp only [QueueInputTransport.stopOp]
    cases s.serverTask <;> simp
  · rfl

/-- `start()` on an adapter that already has a background task is the
identity and creates nothing. -/
theorem start_with_task_is_noop (s : QueueInputTransport) (t id : Nat)
    (h : s.serverTask = some t) : s.start id = (s, 0) := by
  simp [QueueInputTransport.start, h]

/-- Consecutive `start()` calls on an adapter that already has a task create
no task at all. -/
theorem startN_with_task (s : QueueInputTransport) (ids : List Nat) (t : Nat)
    (h : s.serverTask = some t) : startN s ids = (s, 0) := by
  induction ids with
  | nil => rfl
  | cons id rest ih =>
      simp [startN, start_with_task_is_noop s t id h, ih]

/-- C4: `start()` is idempotent. Any non-empty run of consecutive `start()`
calls on an adapter with no background task creates exactly one task and
leaves exactly one task in place; and a `start()` call made while a task
already exists returns the state unchanged, creating no additional task. -/
theorem start_idempotent (s : QueueInputTransport) (ids : List Nat)
    (h : s.serverTask = none) (hne : ids ≠ []) :
    (startN s ids).2 = 1 ∧ (startN s ids).1.serverTask.isSome = true ∧
    ∀ (s2 : QueueInputTransport) (t id2 : Nat), s2.serverTask = some t →
      s2.start id2 = (s2, 0) := by
  refine ⟨?_, ?_, fun s2 t id2 h2 => start_with_task_is_noop s2 t id2 h2⟩ <;>
  · cases ids with
    | nil => exact absurd rfl hne
    | cons id rest =>
        have h1 : s.start id = ({ s with serverTask := some id }, 1) := by
          simp [QueueInputTransport.start, h]
        have h2 : startN { s with serverTask := some id } rest =
            ({ s with serverTask := some id }, 0) :=
          startN_with_task _ rest id rfl
        simp [startN, h1, h2]

/-- Witness for C4 at a concrete adapter: two consecutive `start()` calls on
a freshly constructed adapter create exactly one background task. -/
theorem start_idempotent_witness :
    (startN (QueueInputTransport.init 0 1 none) [7, 8]).2 = 1 :=
  (start_idempotent (QueueInputTransport.init 0 1 none) [7, 8] rfl
    (by decide)).1

/-- C3 (amended): for any run of the Input Adapter over a script of
successful dequeues and timeouts — the delivery order of the FIFO inbound
queue holding the buffers pushed before the adapter started — with every
pushed buffer non-empty, the non-empty payloads of the forwarded frames
equal the dequeued buffers, in order: no reordering, duplication or loss,
with heartbeat frames interleaved but dropped by the observation. -/
theorem ordering_preserved (cfg : AudioConfig) (script : List FetchResult)
    (hclean : cleanScript script = true)
    (hne : ∀ b ∈ itemsOf script, b ≠ ([] : ByteBuf)) :
    nonEmptyPayloads (serverTaskHandler cfg false script).forwarded =
      itemsOf script := by
  rw [serverTaskHandler_false]
  induction script with
  | nil => rfl
  | cons r rest ih =>
      rw [cleanScript, List.all_cons, Bool.and_eq_true] at hclean
      cases r with
      | item b =>
          have hb : b ≠ ([] : ByteBuf) := hne b (by simp [itemsOf])
          have hrest : ∀ b2 ∈ itemsOf rest, b2 ≠ ([] : ByteBuf) := fun b2 hb2 =>
            hne b2 (by simp [itemsOf, hb2])
          show nonEmptyPayloads (inputFrame cfg b :: (runLoop cfg rest).forwarded) =
            b :: itemsOf rest
          rw [nonEmptyPayloads]
          simp only [inputFrame]
          rw [if_neg hb]
          exact congrArg (b :: ·) (ih hclean.2 hrest)
      | itemThenFail b e => simp [cleanEntry] at hclean
      | timeout =>
          have hrest : ∀ b2 ∈ itemsOf rest, b2 ≠ ([] : ByteBuf) := fun b2 hb2 =>
            hne b2 (by simp [itemsOf, hb2])
          show nonEmptyPayloads (heartbeatFrame cfg :: (runLoop cfg rest).forwarded) =
            itemsOf rest
          rw [nonEmptyPayloads]
          simp only [heartbeatFrame, inputFrame, if_true]
          exact ih hclean.2 hrest
      | fail e => simp [cleanEntry] at hclean
      | cancelled => simp [cleanEntry] at hclean

/-- Witness for C3 at a concrete run: two buffers dequeued with timeouts
interleaved come out in order with heartbeats dropped. -/
theorem ordering_preserved_witness :
    nonEmptyPayloads (serverTaskHandler {} false
      [FetchResult.timeout, FetchResult.item [1], FetchResult.timeout,
       FetchResult.item [2, 3]]).forwarded = [[1], [2, 3]] :=
  (ordering_preserved {}
    [FetchResult.timeout, FetchResult.item [1], FetchResult.timeout,
     FetchResult.item [2, 3]] (by decide) (by decide)).trans (by decide)

/-- C3 counterexample: push the single buffer `b""` before start. The loop
dequeues it and forwards one frame with empty payload, so the sequence of
non-empty payloads of the forwarded frames is `[]`, not the pushed
sequence `[b""]`: the claim fails for pushed sequences containing an empty
buffer (an empty pushed buffer is indistinguishable from a heartbeat under
the claim's observation). -/
theorem ordering_counterexample :
    cleanScript [FetchResult.item []] = true ∧
    itemsOf [FetchResult.item []] = [[]] ∧
    nonEmptyPayloads
      (serverTaskHandler {} false [FetchResult.item []]).forwarded = [] ∧
    ([] : List ByteBuf) ≠ [[]] := by decide

/-- C1 (evaluation of the code at the failing call): on a concrete facade,
the first `input()` call constructs an Input Adapter bound to this facade,
the inbound queue and the audio configuration and caches it, and a second
`input()` call returns the very same cached pair unchanged; but the first
`output()` call raises `TypeError` — the source executes
`QueueOutputTransport(self._output_queue)`, passing the outbound queue as
the `transport` positional and omitting the required `queue` parameter — so
no Output Adapter is ever constructed or cached. -/
theorem facade_input_caches_but_output_raises :
    (((QueueTransport.init 0 1 2 none).input).2 =
        QueueInputTransport.init 0 1 (some {}) ∧
      ((QueueTransport.init 0 1 2 none).input).1.inputCache =
        some ((QueueTransport.init 0 1 2 none).input).2 ∧
      ((QueueTransport.init 0 1 2 none).input).1.input =
        (((QueueTransport.init 0 1 2 none).input).1,
          ((QueueTransport.init 0 1 2 none).input).2)) ∧
    (QueueTransport.init 0 1 2 none).output =
      .error { className := "TypeError",
               msg := "missing 1 required positional argument: queue" } :=
  ⟨⟨rfl, rfl, rfl⟩, rfl⟩

/-- C7: every exception raised during serialization or transmission on the
Output Adapter write path is caught inside `_write_frame` and becomes an
error log line carrying the adapter identity and the exception class name
and message; `send_message` and `write_raw_audio_frames` return an outcome
to the caller in every case (the result type of the write path is a plain
value, mirroring the `try`/`except Exception` that stops every exception);
and the write path keeps no adapter state, so in any sequence of calls the
one after a failure computes exactly the standalone outcome. -/
theorem output_write_errors_swallowed (self : QueueOutputTransport)
    (serialize : Frame → Except PyErr ByteBuf)
    (send : ByteBuf → Except PyErr Unit) (ws : Bool)
    (m : TransportMessage) (bs : ByteBuf) :
    (∀ e, serialize m.toFrame = .error e →
        self.send_message serialize send ws m =
          { sendAttempted := none,
            errorLog := some (excLogMsg self.selfRepr e) }) ∧
    (∀ e, serialize (.outputAudio (self.outFrameFor bs)) = .error e →
        self.write_raw_audio_frames serialize send ws bs =
          { sendAttempted := none,
            errorLog := some (excLogMsg self.selfRepr e) }) ∧
    (∀ p e, serialize (.outputAudio (self.outFrameFor bs)) = .ok p →
        p ≠ [] → ws = true → send p = .error e →
        self.write_raw_audio_frames serialize send ws bs =
          { sendAttempted := some p,
            errorLog := some (excLogMsg self.selfRepr e) }) ∧
    (∀ (calls : List ByteBuf) (bs2 : ByteBuf),
        writeMany self serialize send ws (calls ++ [bs2]) =
          writeMany self serialize send ws calls ++
            [self.write_raw_audio_frames serialize send ws bs2]) := by
  refine ⟨?_, ?_, ?_, ?_⟩
  · intro e he
    simp [QueueOutputTransport.send_message, QueueOutputTransport.writeFrame, he]
  · intro e he
    simp [QueueOutputTransport.write_raw_audio_frames,
      QueueOutputTransport.writeFrame, he]
  · intro p e hp hpne hws hsend
    subst hws
    have hempty : p.isEmpty = false := by
      cases p with
      | nil => exact absurd rfl hpne
      | cons a l => rfl
    simp [QueueOutputTransport.write_raw_audio_frames,
      QueueOutputTransport.writeFrame, hp, hsend, hempty]
  · intro calls bs2
    simp [writeMany]

/-- Witness for C7 at a concrete failing serializer: the failed
`send_message` returns the logged outcome instead of raising. -/
theorem output_write_errors_swallowed_witness :
    sampleOut.send_message (fun _ => .error ⟨"ValueError", "boom"⟩)
      (fun _ => .ok ()) true (.ordinary "hi") =
      { sendAttempted := none,
        errorLog := some (excLogMsg sampleOut.selfRepr
          ⟨"ValueError", "boom"⟩) } :=
  (output_write_errors_swallowed sampleOut
    (fun _ => .error ⟨"ValueError", "boom"⟩) (fun _ => .ok ()) true
    (.ordinary "hi") []).1 ⟨"ValueError", "boom"⟩ rfl

/-- C8: on the internal write path, a payload is handed to the connection's
`send` exactly when serialization returned that payload, it is non-empty,
and a live connection is attached; and when serialization succeeds but the
payload is empty or no connection is attached, the write is a silent no-op:
no send is attempted and no error is logged or raised. -/
theorem write_skips_without_payload_or_connection (self : QueueOutputTransport)
    (serialize : Frame → Except PyErr ByteBuf)
    (send : ByteBuf → Except PyErr Unit) (ws : Bool) (frame : Frame) :
    (∀ p, (self.writeFrame serialize send ws frame).sendAttempted = some p ↔
        (serialize frame = .ok p ∧ p ≠ [] ∧ ws = true)) ∧
    (∀ p, serialize frame = .ok p → (p = [] ∨ ws = false) →
        self.writeFrame serialize send ws frame =
          { sendAttempted := none, errorLog := none }) := by
  constructor
  · intro p
    cases hs : serialize frame with
    | error e => simp [QueueOutputTransport.writeFrame, hs]
    | ok q =>
        cases q with
        | nil =>
            simp [QueueOutputTransport.writeFrame, hs]
            exact fun h1 h2 => absurd h1 h2
        | cons a l =>
            cases ws with
            | false => simp [QueueOutputTransport.writeFrame, hs]
            | true =>
                cases hsend : send (a :: l) with
                | ok u =>
                    simp [QueueOutputTransport.writeFrame, hs, hsend]
                    intro h
                    subst h
                    simp
                | error e =>
                    simp [QueueOutputTransport.writeFrame, hs, hsend]
                    intro h
                    subst h
                    simp
  · intro p hp hskip
    cases hskip with
    | inl hempty =>
        subst hempty
        simp [QueueOutputTransport.writeFrame, hp]
    | inr hws =>
        subst hws
        simp [QueueOutputTransport.writeFrame, hp]

/-- Witness for C8 at a concrete serializer returning an empty payload: no
send is attempted and nothing is logged. -/
theorem write_skips_witness :
    sampleOut.writeFrame (fun _ => .ok []) (fun _ => .ok ()) true
      (.message "x") = { sendAttempted := none, errorLog := none } :=
  (write_skips_without_payload_or_connection sampleOut (fun _ => .ok [])
    (fun _ => .ok ()) true (.message "x")).2 [] rfl (Or.inl rfl)

/-- C9 counterexample: an output adapter whose pipecat base state resolved
8000 Hz and 2 channels wraps a raw buffer at 8000 Hz / 2 channels — not at
the 16000 Hz / 1 channel of the default audio configuration the claim says
is attached to the adapter (no `AudioConfig` of this unit is attached to
the output adapter; `QueueOutputTransport.__init__` receives none and the
facade passes none). -/
theorem write_frames_config_counterexample :
    (out8k.outFrameFor [1]).sample_rate = 8000 ∧
    (out8k.outFrameFor [1]).num_channels = 2 ∧
    ({} : AudioConfig).sample_rate = 16000 ∧
    ({} : AudioConfig).num_channels = 1 ∧
    (out8k.outFrameFor [1]).sample_rate ≠ ({} : AudioConfig).sample_rate ∧
    (out8k.outFrameFor [1]).num_channels ≠ ({} : AudioConfig).num_channels := by
  decide

/-- C9 (amended): `write_raw_audio_frames` wraps the byte buffer into an
outbound raw-audio frame whose payload is the buffer, whose sample rate is
the base output transport's resolved sample rate and whose channel count is
the transport params' `audio_out_channels`, and writes exactly that frame
through the internal write path. -/
theorem write_frames_uses_base_state (self : QueueOutputTransport)
    (serialize : Frame → Except PyErr ByteBuf)
    (send : ByteBuf → Except PyErr Unit) (ws : Bool) (bs : ByteBuf) :
    (self.outFrameFor bs).audio = bs ∧
    (self.outFrameFor bs).sample_rate = self.sample_rate ∧
    (self.outFrameFor bs).num_channels = self.audio_out_channels ∧
    self.write_raw_audio_frames serialize send ws bs =
      self.writeFrame serialize send ws (.outputAudio (self.outFrameFor bs)) :=
  ⟨rfl, rfl, rfl, rfl⟩

end QTModel
